import Mathlib

/-!
Verification of the session registry and command dispatcher of the PDF
reader MCP server.  The two Python sources (server_pymupdf.py, the
image-capable variant, and server_old.py, the plain variant) are shallowly
embedded: the module-level dicts pdfs / pdf_paths / pdf_images become
association lists with unique keys, a fitz document becomes a record of its
extracted per-page text, its metadata map and its per-page extracted image
files (the PDF-parsing library itself is an external collaborator), and
every handler becomes a total function returning Except with the ValueError
message on the error side and the returned text content on the ok side.
-/

namespace PdfReader

/-- Association-list lookup, modelling Python dict access.  The dicts of the
server always have unique keys, so the first match is the only match. -/
def dlookup {κ α : Type} [DecidableEq κ] (k : κ) : List (κ × α) → Option α
  | [] => none
  | kv :: rest => if kv.1 = k then some kv.2 else dlookup k rest

/-- Association-list insertion with Python dict semantics: an existing key is
overwritten in place, a new key is appended at the end. -/
def dinsert {κ α : Type} [DecidableEq κ] (k : κ) (v : α) : List (κ × α) → List (κ × α)
  | [] => [(k, v)]
  | kv :: rest => if kv.1 = k then (k, v) :: rest else kv :: dinsert k v rest

/-- Association-list deletion, modelling Python del d[k] on a unique-key dict. -/
def derase {κ α : Type} [DecidableEq κ] (k : κ) (d : List (κ × α)) : List (κ × α) :=
  d.filter (fun kv => decide (kv.1 ≠ k))

/-- Key membership, modelling the Python test k in d. -/
def dmem {κ α : Type} [DecidableEq κ] (k : κ) (d : List (κ × α)) : Bool :=
  (dlookup k d).isSome

theorem dlookup_dinsert_self {κ α : Type} [DecidableEq κ] (k : κ) (v : α)
    (d : List (κ × α)) : dlookup k (dinsert k v d) = some v := by
  induction d with
  | nil => simp [dinsert, dlookup]
  | cons kv rest ih =>
      by_cases h : kv.1 = k
      · simp [dinsert, dlookup, h]
      · simp [dinsert, dlookup, h, ih]

theorem dlookup_dinsert_ne {κ α : Type} [DecidableEq κ] (k k' : κ) (v : α)
    (d : List (κ × α)) (hne : k' ≠ k) :
    dlookup k (dinsert k' v d) = dlookup k d := by
  induction d with
  | nil => simp [dinsert, dlookup, hne]
  | cons kv rest ih =>
      by_cases h : kv.1 = k'
      · simp [dinsert, dlookup, h, hne]
      · by_cases h2 : kv.1 = k
        · simp [dinsert, dlookup, h, h2, Ne.symm hne]
        · simp [dinsert, dlookup, h, h2, ih]

theorem length_dinsert_mem {κ α : Type} [DecidableEq κ] (k : κ) (v : α)
    (d : List (κ × α)) (h : dmem k d = true) :
    (dinsert k v d).length = d.length := by
  induction d with
  | nil => simp [dmem, dlookup] at h
  | cons kv rest ih =>
      by_cases hk : kv.1 = k
      · simp [dinsert, hk]
      · simp only [dmem, dlookup, hk, if_neg hk] at h
        simp [dinsert, hk, ih h]

theorem length_dinsert_notmem {κ α : Type} [DecidableEq κ] (k : κ) (v : α)
    (d : List (κ × α)) (h : dmem k d = false) :
    (dinsert k v d).length = d.length + 1 := by
  induction d with
  | nil => simp [dinsert]
  | cons kv rest ih =>
      by_cases hk : kv.1 = k
      · simp [dmem, dlookup, hk] at h
      · simp only [dmem, dlookup, hk, if_neg hk] at h
        simp [dinsert, hk, ih h]

theorem dlookup_derase_self {κ α : Type} [DecidableEq κ] (k : κ)
    (d : List (κ × α)) : dlookup k (derase k d) = none := by
  induction d with
  | nil => simp [derase, dlookup]
  | cons kv rest ih =>
      by_cases h : kv.1 = k
      · simpa [derase, List.filter, h] using ih
      · simpa [derase, List.filter, h, dlookup] using ih

/-! ### Base64

Python base64.b64encode (standard alphabet, used by handle_read_resource)
and base64.urlsafe_b64encode (used to derive session ids) are embedded over
byte values.  The decoder below is the standard RFC 4648 decoding and is
used only to state the round-trip property of claim C9. -/

/-- Standard base64 alphabet, as used by Python base64.b64encode. -/
def b64CharsStd : List Char :=
  ['A', 'B', 'C', 'D', 'E', 'F', 'G', 'H', 'I', 'J', 'K', 'L', 'M',
   'N', 'O', 'P', 'Q', 'R', 'S', 'T', 'U', 'V', 'W', 'X', 'Y', 'Z',
   'a', 'b', 'c', 'd', 'e', 'f', 'g', 'h', 'i', 'j', 'k', 'l', 'm',
   'n', 'o', 'p', 'q', 'r', 's', 't', 'u', 'v', 'w', 'x', 'y', 'z',
   '0', '1', '2', '3', '4', '5', '6', '7', '8', '9', '+', '/']

/-- URL-safe base64 alphabet, as used by Python base64.urlsafe_b64encode. -/
def b64CharsUrl : List Char :=
  ['A', 'B', 'C', 'D', 'E', 'F', 'G', 'H', 'I', 'J', 'K', 'L', 'M',
   'N', 'O', 'P', 'Q', 'R', 'S', 'T', 'U', 'V', 'W', 'X', 'Y', 'Z',
   'a', 'b', 'c', 'd', 'e', 'f', 'g', 'h', 'i', 'j', 'k', 'l', 'm',
   'n', 'o', 'p', 'q', 'r', 's', 't', 'u', 'v', 'w', 'x', 'y', 'z',
   '0', '1', '2', '3', '4', '5', '6', '7', '8', '9', '-', '_']

/-- Character of a six-bit value in the standard alphabet. -/
def b64CharStd (n : Nat) : Char := b64CharsStd.getD n 'A'

/-- Character of a six-bit value in the URL-safe alphabet. -/
def b64CharUrl (n : Nat) : Char := b64CharsUrl.getD n 'A'

/-- Index of a character in a character list (0 if absent, which the
round-trip proof never hits). -/
def charIdx (c : Char) : List Char → Nat
  | [] => 0
  | d :: rest => if d = c then 0 else charIdx c rest + 1

/-- Six-bit value of a standard-alphabet base64 character. -/
def b64ValStd (c : Char) : Nat := charIdx c b64CharsStd

/-- Base64 encoding with the standard alphabet and '=' padding, over byte
values, exactly as Python base64.b64encode produces it. -/
def b64EncodeStd : List Nat → List Char
  | [] => []
  | [b1] => [b64CharStd (b1 / 4), b64CharStd (b1 % 4 * 16), '=', '=']
  | [b1, b2] =>
      [b64CharStd (b1 / 4), b64CharStd (b1 % 4 * 16 + b2 / 16),
       b64CharStd (b2 % 16 * 4), '=']
  | b1 :: b2 :: b3 :: rest =>
      b64CharStd (b1 / 4) :: b64CharStd (b1 % 4 * 16 + b2 / 16) ::
        b64CharStd (b2 % 16 * 4 + b3 / 64) :: b64CharStd (b3 % 64) ::
        b64EncodeStd rest

/-- Base64 encoding with the URL-safe alphabet and '=' padding, over byte
values, exactly as Python base64.urlsafe_b64encode produces it. -/
def b64EncodeUrl : List Nat → List Char
  | [] => []
  | [b1] => [b64CharUrl (b1 / 4), b64CharUrl (b1 % 4 * 16), '=', '=']
  | [b1, b2] =>
      [b64CharUrl (b1 / 4), b64CharUrl (b1 % 4 * 16 + b2 / 16),
       b64CharUrl (b2 % 16 * 4), '=']
  | b1 :: b2 :: b3 :: rest =>
      b64CharUrl (b1 / 4) :: b64CharUrl (b1 % 4 * 16 + b2 / 16) ::
        b64CharUrl (b2 % 16 * 4 + b3 / 64) :: b64CharUrl (b3 % 64) ::
        b64EncodeUrl rest

/-- Standard RFC 4648 base64 decoding, consuming four characters at a time
and honouring '=' padding.  Used to state the round-trip of claim C9. -/
def b64DecodeStd : List Char → List Nat
  | c1 :: c2 :: c3 :: c4 :: rest =>
      let v1 := b64ValStd c1
      let v2 := b64ValStd c2
      if c3 = '=' then [v1 * 4 + v2 / 16]
      else
        let v3 := b64ValStd c3
        if c4 = '=' then [v1 * 4 + v2 / 16, v2 % 16 * 16 + v3 / 4]
        else
          (v1 * 4 + v2 / 16) :: (v2 % 16 * 16 + v3 / 4) ::
            (v3 % 4 * 64 + b64ValStd c4) :: b64DecodeStd rest
  | _ => []

theorem b64ValStd_b64CharStd : ∀ n, n < 64 → b64ValStd (b64CharStd n) = n := by decide

theorem b64CharStd_ne_pad : ∀ n, n < 64 → ¬(b64CharStd n = '=') := by decide

theorem b64_roundtrip : ∀ (bs : List Nat), (∀ b ∈ bs, b < 256) →
    b64DecodeStd (b64EncodeStd bs) = bs
  | [], _ => rfl
  | [b1], h => by
      have hb1 : b1 < 256 := h b1 (by simp)
      have e1 : b64ValStd (b64CharStd (b1 / 4)) = b1 / 4 :=
        b64ValStd_b64CharStd _ (by omega)
      have e2 : b64ValStd (b64CharStd (b1 % 4 * 16)) = b1 % 4 * 16 :=
        b64ValStd_b64CharStd _ (by omega)
      simp only [b64EncodeStd, b64DecodeStd, if_true]
      rw [e1, e2]
      have hv : b1 / 4 * 4 + b1 % 4 * 16 / 16 = b1 := by omega
      rw [hv]
  | [b1, b2], h => by
      have hb1 : b1 < 256 := h b1 (by simp)
      have hb2 : b2 < 256 := h b2 (by simp)
      have e1 : b64ValStd (b64CharStd (b1 / 4)) = b1 / 4 :=
        b64ValStd_b64CharStd _ (by omega)
      have e2 : b64ValStd (b64CharStd (b1 % 4 * 16 + b2 / 16)) = b1 % 4 * 16 + b2 / 16 :=
        b64ValStd_b64CharStd _ (by omega)
      have e3 : b64ValStd (b64CharStd (b2 % 16 * 4)) = b2 % 16 * 4 :=
        b64ValStd_b64CharStd _ (by omega)
      have n3 : ¬(b64CharStd (b2 % 16 * 4) = '=') :=
        b64CharStd_ne_pad _ (by omega)
      simp only [b64EncodeStd, b64DecodeStd]
      rw [if_neg n3]
      simp only [if_true]
      rw [e1, e2, e3]
      have r1 : b1 / 4 * 4 + (b1 % 4 * 16 + b2 / 16) / 16 = b1 := by omega
      have r2 : (b1 % 4 * 16 + b2 / 16) % 16 * 16 + b2 % 16 * 4 / 4 = b2 := by omega
      rw [r1, r2]
  | b1 :: b2 :: b3 :: rest, h => by
      have hb1 : b1 < 256 := h b1 (by simp)
      have hb2 : b2 < 256 := h b2 (by simp)
      have hb3 : b3 < 256 := h b3 (by simp)
      have e1 : b64ValStd (b64CharStd (b1 / 4)) = b1 / 4 :=
        b64ValStd_b64CharStd _ (by omega)
      have e2 : b64ValStd (b64CharStd (b1 % 4 * 16 + b2 / 16)) = b1 % 4 * 16 + b2 / 16 :=
        b64ValStd_b64CharStd _ (by omega)
      have e3 : b64ValStd (b64CharStd (b2 % 16 * 4 + b3 / 64)) = b2 % 16 * 4 + b3 / 64 :=
        b64ValStd_b64CharStd _ (by omega)
      have e4 : b64ValStd (b64CharStd (b3 % 64)) = b3 % 64 :=
        b64ValStd_b64CharStd _ (by omega)
      have n3 : ¬(b64CharStd (b2 % 16 * 4 + b3 / 64) = '=') :=
        b64CharStd_ne_pad _ (by omega)
      have n4 : ¬(b64CharStd (b3 % 64) = '=') :=
        b64CharStd_ne_pad _ (by omega)
      have ih := b64_roundtrip rest (by
        intro b hb
        exact h b (by simp [hb]))
      simp only [b64EncodeStd, b64DecodeStd]
      rw [if_neg n3, if_neg n4, e1, e2, e3, e4, ih]
      have r1 : b1 / 4 * 4 + (b1 % 4 * 16 + b2 / 16) / 16 = b1 := by omega
      have r2 : (b1 % 4 * 16 + b2 / 16) % 16 * 16 + (b2 % 16 * 4 + b3 / 64) / 4 = b2 := by
        omega
      have r3 : (b2 % 16 * 4 + b3 / 64) % 4 * 64 + b3 % 64 = b3 := by omega
      rw [r1, r2, r3]

/-! ### Strings, paths and session ids -/

/-- UTF-8 encoding of one character, as Python str.encode() produces it. -/
def utf8EncodeCharNat (c : Char) : List Nat :=
  let n := c.toNat
  if n < 128 then [n]
  else if n < 2048 then [192 + n / 64, 128 + n % 64]
  else if n < 65536 then [224 + n / 4096, 128 + n / 64 % 64, 128 + n % 64]
  else [240 + n / 262144, 128 + n / 4096 % 64, 128 + n / 64 % 64, 128 + n % 64]

/-- UTF-8 bytes of a string, modelling Python path.encode(). -/
def utf8Bytes (s : String) : List Nat := s.data.flatMap utf8EncodeCharNat

/-- Session id of an absolute path:
base64.urlsafe_b64encode(path.encode()).decode()[:12]. -/
def pdfId (path : String) : String :=
  String.mk ((b64EncodeUrl (utf8Bytes path)).take 12)

/-- Final path component, modelling os.path.basename and Path(...).name on
POSIX paths: everything after the last slash. -/
def basename (p : String) : String :=
  String.mk ((p.data.reverse.takeWhile (fun c => !(c == '/'))).reverse)

/-- ASCII whitespace recognised by Python str.strip(). -/
def isPyWs (c : Char) : Bool :=
  (c == ' ') || (c == '\n') || (c == '\t') || (c == '\r') ||
    (c == Char.ofNat 11) || (c == Char.ofNat 12)

/-- Left-to-right non-overlapping replacement of two newlines by one,
modelling Python text.replace with the two-newline pattern. -/
def collapseNl : List Char → List Char
  | '\n' :: '\n' :: rest => '\n' :: collapseNl rest
  | c :: rest => c :: collapseNl rest
  | [] => []

/-- Python str.strip() on the ASCII whitespace the documents here contain. -/
def pyStrip (cs : List Char) : List Char :=
  ((cs.dropWhile isPyWs).reverse.dropWhile isPyWs).reverse

/-- The normalisation applied by pdf-to-text and the prompts to nonempty
page text: replace two newlines by one, then strip. -/
def collapseStrip (s : String) : String := String.mk (pyStrip (collapseNl s.data))

/-- The bare two-newline collapse, used to state claim C7. -/
def collapseStr (s : String) : String := String.mk (collapseNl s.data)

/-- Whether needle occurs as a contiguous substring of hay. -/
def containsSub : List Char → List Char → Bool
  | hay, needle =>
    if needle.isPrefixOf hay then true
    else
      match hay with
      | [] => false
      | _ :: rest => containsSub rest needle

/-- Substring test on strings, used to state which pages a produced prompt
message embeds. -/
def strContains (s sub : String) : Bool := containsSub s.data sub.data

/-! ### Data model -/

/-- An open fitz document, abstracted to what the dispatcher reads from the
external PDF library: the extracted text of each page, the metadata
key/value pairs, and per page the names of the PNG files that
extract_images_from_page successfully writes for it (image enumeration,
pixmap decoding, CMYK conversion and the warn-and-skip loop around failed
images are the external library boundary). -/
structure Doc where
  pages : List String
  metadata : List (String × String)
  pageImages : List (List String)
  deriving DecidableEq

/-- The module-level mutable state of the server: the dicts pdfs,
pdf_paths and pdf_images.  Document handles are numbered in allocation
order (next is the allocation counter), closed records the handles on
which Document.close() was called, and handleDoc keeps every allocated
handle's parsed content, so that claims can talk about handles that were
overwritten without being closed. -/
structure PState where
  pdfs : List (String × Nat)
  pdf_paths : List (String × String)
  pdf_images : List (String × List (Nat × List String))
  handleDoc : List (Nat × Doc)
  closed : List Nat
  next : Nat

/-- The initial module state: all dicts empty. -/
def st0 : PState :=
  { pdfs := [], pdf_paths := [], pdf_images := [], handleDoc := [], closed := [], next := 0 }

/-- Document currently stored under a session id.  The default is never
reached by the handlers, which check membership first. -/
def docOf (st : PState) (id : String) : Doc :=
  ((dlookup id st.pdfs).bind (fun hh => dlookup hh st.handleDoc)).getD
    { pages := [], metadata := [], pageImages := [] }

/-- Path stored under a session id in pdf_paths. -/
def pathOf (st : PState) (id : String) : String :=
  (dlookup id st.pdf_paths).getD ""

/-- Whether a handler returned normally rather than raising. -/
def isOkE {ε α : Type} : Except ε α → Bool
  | Except.ok _ => true
  | Except.error _ => false

/-- The text carried by a handler result, for concrete evaluations. -/
def okText : Except String String → String
  | Except.ok s => s
  | Except.error e => e

/-! ### Tools (Command Dispatcher) -/

/-- The open-pdf tool.  fs abstracts the filesystem and the PDF parser:
fs path = some doc when the (already normalized, absolute) path exists, is
a readable regular file and parses as a PDF with the given content; the
individual error messages of the checks are collapsed into one error value
since no claim distinguishes them.  On success the new handle overwrites
whatever the derived id previously mapped to, without closing it. -/
def openPdf (fs : String → Option Doc) (st : PState) (path : String) :
    Except String (PState × String) :=
  if path = "" then Except.error "Missing path"
  else
    match fs path with
    | none => Except.error ("Failed to open PDF: " ++ path)
    | some doc =>
        let id := pdfId path
        Except.ok
          ({ st with
              pdfs := dinsert id st.next st.pdfs
              pdf_paths := dinsert id path st.pdf_paths
              pdf_images := dinsert id [] st.pdf_images
              handleDoc := dinsert st.next doc st.handleDoc
              next := st.next + 1 },
            "Opened PDF \x27" ++ basename path ++ "\x27 with " ++
              toString doc.pages.length ++ " pages. PDF ID: " ++ id)

/-- The close-pdf tool (image-capable variant): calls Document.close() on
the stored handle and removes the id from all three dicts. -/
def closePdf (st : PState) (id : String) : Except String (PState × String) :=
  if id = "" ∨ dmem id st.pdfs = false then Except.error "Invalid PDF ID"
  else
    let path := pathOf st id
    let hh := (dlookup id st.pdfs).getD 0
    Except.ok
      ({ st with
          pdfs := derase id st.pdfs
          pdf_paths := derase id st.pdf_paths
          pdf_images := derase id st.pdf_images
          closed := hh :: st.closed },
        "Closed PDF \x27" ++ basename path ++ "\x27")

/-- The get-pdf-page-count tool. -/
def getPdfPageCount (st : PState) (id : String) : Except String String :=
  if id = "" ∨ dmem id st.pdfs = false then Except.error "Invalid PDF ID"
  else
    Except.ok ("\x27" ++ basename (pathOf st id) ++ "\x27 has " ++
      toString (docOf st id).pages.length ++ " pages")

/-- The list-pdf-metadata tool of the plain variant. -/
def listPdfMetadata (st : PState) (id : String) : Except String String :=
  if id = "" ∨ dmem id st.pdfs = false then Except.error "Invalid PDF ID"
  else
    let md := (docOf st id).metadata
    let mtext := if md = [] then "No metadata available"
      else String.intercalate "\n" (md.map (fun kv => kv.1 ++ ": " ++ kv.2))
    Except.ok ("Metadata for \x27" ++ basename (pathOf st id) ++ "\x27:\n\n" ++ mtext)

/-- Temp directory for a session's extracted images, with
tempfile.gettempdir() modelled as /tmp. -/
def tempDirFor (id : String) : String := "/tmp/pdf_reader_" ++ id

/-- Result of extract_images_from_page: the ordered list of PNG paths
written for the page (failed images were already skipped by the
warn-and-skip loop, which Doc.pageImages records). -/
def extractImagesFromPage (d : Doc) (p : Nat) (id : String) : List String :=
  (d.pageImages.getD p []).map (fun nm => tempDirFor id ++ "/" ++ nm)

/-- The get-pdf-page-text tool (image-capable variant): strict single-page
validation naming the valid range, a placeholder for empty text, the image
count appended.  The extracted page text is embedded verbatim. -/
def getPdfPageText (st : PState) (id : String) (pageNumber : Option Int) :
    Except String String :=
  if id = "" ∨ dmem id st.pdfs = false then Except.error "Invalid PDF ID"
  else
    match pageNumber with
    | none => Except.error "Missing page number"
    | some p =>
        let d := docOf st id
        let n : Int := d.pages.length
        if p < 0 ∨ n ≤ p then
          Except.error ("Invalid page number (0-" ++ toString (n - 1) ++ ")")
        else
          let raw := d.pages.getD p.toNat ""
          let txt := if raw = "" then "No extractable text found on page " ++ toString p
            else raw
          let images := extractImagesFromPage d p.toNat id
          Except.ok ("Text from page " ++ toString p ++ " of \x27" ++
            basename (pathOf st id) ++ "\x27:\n\n" ++ txt ++
            "\n\nImages on page: " ++ toString images.length)

/-- The extract-images tool (image-capable variant). -/
def extractImagesTool (st : PState) (id : String) (pageNumber : Option Int) :
    Except String String :=
  if id = "" ∨ dmem id st.pdfs = false then Except.error "Invalid PDF ID"
  else
    match pageNumber with
    | none => Except.error "Missing page number"
    | some p =>
        let d := docOf st id
        let n : Int := d.pages.length
        if p < 0 ∨ n ≤ p then Except.error "Invalid page number"
        else
          let images := extractImagesFromPage d p.toNat id
          if images = [] then
            Except.ok ("No images found on page " ++ toString p)
          else
            Except.ok ("Extracted " ++ toString images.length ++
              " image(s) from page " ++ toString p ++ ":\n" ++
              String.intercalate "\n" (images.map (fun i => "- " ++ basename i)))

/-- The integers from a to b inclusive, modelling Python range(a, b + 1). -/
def intRange (a b : Int) : List Int :=
  (List.range (b + 1 - a).toNat).map (fun i => a + i)

/-- Start bound clamping of pdf-to-text: an out-of-range start becomes 0. -/
def clampStart (n s : Int) : Int := if s < 0 ∨ n ≤ s then 0 else s

/-- End bound clamping of pdf-to-text: an out-of-range end becomes n - 1. -/
def clampEnd (n e : Int) : Int := if e < 0 ∨ n ≤ e then n - 1 else e

/-- Page marker line used by pdf-to-text and the prompt loops. -/
def pageMarker (p n : Int) : String :=
  "\n--- PAGE " ++ toString (p + 1) ++ "/" ++ toString n ++ " ---\n"

/-- Contribution of one page to the all_text list of pdf-to-text
(image-capable variant): nonempty text is collapsed and stripped; empty
text yields the placeholder marker only when page markers are requested. -/
def pageEntry (d : Doc) (n : Int) (inc : Bool) (p : Int) : List String :=
  let raw := d.pages.getD p.toNat ""
  if raw = "" then
    if inc then [pageMarker p n ++ "[No extractable text]"] else []
  else
    if inc then [pageMarker p n ++ collapseStrip raw] else [collapseStrip raw]

/-- The all_text list accumulated by pdf-to-text over the final range. -/
def fullTextParts (d : Doc) (n : Int) (inc : Bool) (s e : Int) : List String :=
  (intRange s e).flatMap (pageEntry d n inc)

/-- Page-range description in the pdf-to-text output header. -/
def rangeDesc (n s e : Int) : String :=
  if s = 0 ∧ e = n - 1 then "all pages (1-" ++ toString n ++ ")"
  else if s = e then "page " ++ toString (s + 1)
  else "pages " ++ toString (s + 1) ++ "-" ++ toString (e + 1)

/-- The pdf-to-text tool (image-capable variant): range bounds are clamped
into range rather than rejected, inverted bounds are swapped, and the pages
of the final range are concatenated. -/
def pdfToText (st : PState) (id : String) (includePageNumbers : Option Bool)
    (startArg endArg : Option Int) : Except String String :=
  if id = "" ∨ dmem id st.pdfs = false then Except.error "Invalid PDF ID"
  else
    let d := docOf st id
    let n : Int := d.pages.length
    let inc := includePageNumbers.getD true
    let s1 := clampStart n (startArg.getD 0)
    let e1 := clampEnd n (endArg.getD (n - 1))
    let s2 := if e1 < s1 then e1 else s1
    let e2 := if e1 < s1 then s1 else e1
    Except.ok ("Text extracted from " ++ rangeDesc n s2 e2 ++ " of \x27" ++
      basename (pathOf st id) ++ "\x27\n\n" ++
      String.intercalate "\n" (fullTextParts d n inc s2 e2))

/-! ### Resources -/

/-- The resources.read handler: checks the pdf URI scheme, looks the host
component up in pdf_paths, and returns the file's bytes base64 encoded.
fileOf models reading the file at a path from the filesystem. -/
def readResource (fileOf : String → List Nat) (st : PState)
    (scheme host : String) : Except String String :=
  if scheme = "pdf" then
    match dlookup host st.pdf_paths with
    | some p => Except.ok (String.mk (b64EncodeStd (fileOf p)))
    | none => Except.error ("PDF not found: " ++ host)
  else Except.error ("Unsupported URI scheme: " ++ scheme)

/-! ### Prompts (Prompt Composer) -/

/-- Text accumulated by the prompt loops: for each page of the inclusive
range whose extracted text is nonempty, a marker line, the collapsed and
stripped text and a trailing newline. -/
def promptPagesContent (d : Doc) (n lo hi : Int) : String :=
  String.join ((intRange lo hi).map (fun p =>
    let raw := d.pages.getD p.toNat ""
    if raw = "" then "" else pageMarker p n ++ collapseStrip raw ++ "\n"))

/-- The analyze-pdf prompt of the image-capable variant
(server_pymupdf.py).  The page_range argument is declared in the prompt
listing but never read by this handler, which always embeds every page. -/
def analyzePromptNew (st : PState) (id : String) (question : Option String)
    (pageRange : Option String) : Except String String :=
  if dmem id st.pdfs = false then Except.error ("PDF not found: " ++ id)
  else
    let q := question.getD ""
    if q = "" then Except.error "Missing question"
    else
      let _ := pageRange
      let d := docOf st id
      let n : Int := d.pages.length
      let tc := promptPagesContent d n 0 (n - 1)
      Except.ok ("# PDF Analysis Request\n\n" ++
        "Document: " ++ basename (pathOf st id) ++ " (" ++ toString n ++ " pages)\n" ++
        "Question: " ++ q ++ "\n\n" ++
        "Content:\n\x60\x60\x60\n" ++ tc ++ "\n\x60\x60\x60\n\n" ++
        "Please analyze and answer the question.")

/-- Numeric value of a nonempty all-digit character list. -/
def digitsVal (cs : List Char) : Option Nat :=
  if cs = [] then none
  else if cs.all Char.isDigit then
    some (cs.foldl (fun a c => a * 10 + (c.toNat - 48)) 0)
  else none

/-- Python int() on the strings the page-range argument carries: optional
surrounding whitespace, an optional sign, then decimal digits. -/
def parseIntPy (cs : List Char) : Option Int :=
  match pyStrip cs with
  | '-' :: rest => (digitsVal rest).map (fun v => -(v : Int))
  | '+' :: rest => (digitsVal rest).map (fun v => (v : Int))
  | cs2 => (digitsVal cs2).map (fun v => (v : Int))

/-- Split a character list at every occurrence of a separator character,
modelling Python str.split with the one-character separator used here. -/
def splitOnChar (sep : Char) : List Char → List (List Char)
  | [] => [[]]
  | c :: rest =>
      if c = sep then [] :: splitOnChar sep rest
      else
        match splitOnChar sep rest with
        | [] => [[c]]
        | seg :: segs => (c :: seg) :: segs

/-- Parsing and clamping of the analyze-pdf page_range argument in the
plain variant: "a-b" clamps a from below at 0 and b from above at n - 1; a
single number is clamped into range on both sides; a non-numeric string is
a format error. -/
def parseRange (pr : String) (n : Int) : Option (Int × Int) :=
  let parts := splitOnChar '-' pr.data
  if parts.length = 2 then
    match parseIntPy (parts.getD 0 []), parseIntPy (parts.getD 1 []) with
    | some a, some b => some (max 0 a, min (n - 1) b)
    | _, _ => none
  else
    match parseIntPy pr.data with
    | some v => some (min (n - 1) (max 0 v), min (n - 1) (max 0 v))
    | none => none

/-- Metadata block of the plain variant's prompts: nonempty values only. -/
def metadataText (d : Doc) : String :=
  if d.metadata = [] then ""
  else "\nDocument Metadata:\n" ++ String.intercalate "\n"
    ((d.metadata.filter (fun kv => decide (kv.2 ≠ ""))).map
      (fun kv => "- " ++ kv.1 ++ ": " ++ kv.2))

/-- The analyze-pdf prompt of the plain variant (server_old.py), which
parses and honours the page_range argument. -/
def analyzePromptOld (st : PState) (id : String) (question : Option String)
    (pageRange : Option String) : Except String String :=
  if dmem id st.pdfs = false then Except.error ("PDF not found: " ++ id)
  else
    let q := question.getD ""
    if q = "" then Except.error "Missing question for PDF analysis"
    else
      let d := docOf st id
      let n : Int := d.pages.length
      let pr := pageRange.getD ""
      match (if pr = "" then some ((0 : Int), n - 1) else parseRange pr n) with
      | none => Except.error ("Invalid page range format: " ++ pr)
      | some se =>
          let s := se.1
          let e := se.2
          let tc := promptPagesContent d n s e
          let pagesDesc := if s = e then "page " ++ toString (s + 1)
            else "pages " ++ toString (s + 1) ++ "-" ++ toString (e + 1)
          Except.ok ("# PDF Analysis Request\n\n" ++
            "I need your help analyzing the following PDF document titled \x27" ++
            basename (pathOf st id) ++ "\x27 (" ++ toString n ++ " total pages).\n" ++
            "I\x27m specifically looking at " ++ pagesDesc ++ "." ++
            metadataText d ++ "\n\n" ++
            "## Question\n" ++ q ++ "\n\n" ++
            "## Document Content\n\x60\x60\x60\n" ++ tc ++ "\n\x60\x60\x60\n\n" ++
            "Please analyze the document content carefully and provide a thorough and accurate answer to my question, citing specific parts of the text where relevant.")

/-! ### Concrete fixtures used by witnesses and counterexamples -/

/-- Three-page document: an empty second page and plain first and third. -/
def docA : Doc :=
  { pages := ["Hello", "", "World"], metadata := [("title", "T")],
    pageImages := [[], [], []] }

/-- One-page document whose extracted text contains a double newline. -/
def docB : Doc :=
  { pages := ["x\n\ny"], metadata := [], pageImages := [[]] }

/-- Two-page document with nonempty texts on both pages. -/
def docC : Doc :=
  { pages := ["A", "B"], metadata := [], pageImages := [[], []] }

/-- One-page document whose only page has no extractable text. -/
def docE : Doc :=
  { pages := [""], metadata := [], pageImages := [[]] }

/-- Filesystem exposing the witness documents. -/
def fsAB : String → Option Doc := fun p =>
  if p = "/tmp/a.pdf" then some docA
  else if p = "/tmp/b.pdf" then some docB
  else if p = "/tmp/c.pdf" then some docC
  else if p = "/tmp/e.pdf" then some docE
  else none

/-- Filesystem exposing two parseable PDFs at distinct absolute paths that
share their first nine bytes. -/
def fsColl : String → Option Doc := fun p =>
  if p = "/tmp/aaaaaa1.pdf" then some docC
  else if p = "/tmp/aaaaaa2.pdf" then some docC
  else none

/-- Byte contents of the witness files on disk. -/
def fileOfA : String → List Nat := fun p =>
  if p = "/tmp/a.pdf" then [37, 80, 68, 70, 45, 49, 46, 52, 10] else []

/-- State after opening /tmp/a.pdf in the empty state. -/
def stA : PState :=
  match openPdf fsAB st0 "/tmp/a.pdf" with
  | Except.ok r => r.1
  | Except.error _ => st0

/-- State after opening /tmp/b.pdf in the empty state. -/
def stB : PState :=
  match openPdf fsAB st0 "/tmp/b.pdf" with
  | Except.ok r => r.1
  | Except.error _ => st0

/-- State after opening /tmp/c.pdf in the empty state. -/
def stC : PState :=
  match openPdf fsAB st0 "/tmp/c.pdf" with
  | Except.ok r => r.1
  | Except.error _ => st0

/-- State after opening /tmp/e.pdf in the empty state. -/
def stE : PState :=
  match openPdf fsAB st0 "/tmp/e.pdf" with
  | Except.ok r => r.1
  | Except.error _ => st0

/-- Session id of /tmp/a.pdf. -/
def idA : String := pdfId "/tmp/a.pdf"

/-- Session id of /tmp/b.pdf. -/
def idB : String := pdfId "/tmp/b.pdf"

/-- Session id of /tmp/c.pdf. -/
def idC : String := pdfId "/tmp/c.pdf"

/-- Session id of /tmp/e.pdf. -/
def idE : String := pdfId "/tmp/e.pdf"

/-! ### Clamping lemmas -/

theorem clampStart_oob (n s : Int) (h : s < 0 ∨ n ≤ s) : clampStart n s = 0 := by
  unfold clampStart
  rw [if_pos h]

theorem clampStart_in (n s : Int) (h1 : 0 ≤ s) (h2 : s < n) : clampStart n s = s := by
  unfold clampStart
  rw [if_neg (by omega)]

theorem clampEnd_oob (n e : Int) (h : e < 0 ∨ n ≤ e) : clampEnd n e = n - 1 := by
  unfold clampEnd
  rw [if_pos h]

theorem clampEnd_in (n e : Int) (h1 : 0 ≤ e) (h2 : e < n) : clampEnd n e = e := by
  unfold clampEnd
  rw [if_neg (by omega)]

/-! ### Claims -/

/-- C4: on an open N-page session (N ≥ 1) and for every choice of the
include_page_numbers flag, pdf-to-text with start = -5 and end = N + 5
returns exactly the result of start = 0, end = N - 1, and is not
rejected: out-of-range bounds of a range request are clamped. -/
theorem fullText_clamping_law (st : PState) (id : String) (inc : Option Bool)
    (hid : id ≠ "") (hmem : dmem id st.pdfs = true)
    (hn : 1 ≤ (docOf st id).pages.length) :
    pdfToText st id inc (some (-5)) (some (((docOf st id).pages.length : Int) + 5)) =
      pdfToText st id inc (some 0) (some (((docOf st id).pages.length : Int) - 1)) ∧
    isOkE (pdfToText st id inc (some (-5))
      (some (((docOf st id).pages.length : Int) + 5))) = true := by
  have hg : ¬(id = "" ∨ dmem id st.pdfs = false) := by simp [hmem, hid]
  constructor
  · simp only [pdfToText, if_neg hg, Option.getD_some]
    rw [clampStart_oob _ (-5) (by omega), clampStart_in _ 0 (by omega) (by omega),
      clampEnd_oob _ _ (by omega), clampEnd_in _ _ (by omega) (by omega)]
  · simp only [pdfToText, if_neg hg, isOkE]

theorem fullText_clamping_law_witness :
    pdfToText stA idA (some true) (some (-5))
        (some (((docOf stA idA).pages.length : Int) + 5)) =
      pdfToText stA idA (some true) (some 0)
        (some (((docOf stA idA).pages.length : Int) - 1)) ∧
    isOkE (pdfToText stA idA (some true) (some (-5))
      (some (((docOf stA idA).pages.length : Int) + 5))) = true :=
  fullText_clamping_law stA idA (some true) (by decide) (by decide) (by decide)

/-- C5: on an open session, for in-range bounds a ≤ b, pdf-to-text called
with start = b and end = a returns the same result as with start = a and
end = b: inverted bounds are swapped, not rejected. -/
theorem fullText_swap_law (st : PState) (id : String) (inc : Option Bool)
    (hid : id ≠ "") (hmem : dmem id st.pdfs = true) (a b : Int)
    (ha : 0 ≤ a) (hab : a ≤ b) (hb : b < ((docOf st id).pages.length : Int)) :
    pdfToText st id inc (some b) (some a) = pdfToText st id inc (some a) (some b) := by
  have hg : ¬(id = "" ∨ dmem id st.pdfs = false) := by simp [hmem, hid]
  simp only [pdfToText, if_neg hg, Option.getD_some]
  rw [clampStart_in _ b (by omega) (by omega), clampEnd_in _ a (by omega) (by omega),
    clampStart_in _ a (by omega) (by omega), clampEnd_in _ b (by omega) (by omega)]
  have h1 : (if a < b then a else b) = (if b < a then b else a) := by
    split_ifs <;> omega
  have h2 : (if a < b then b else a) = (if b < a then a else b) := by
    split_ifs <;> omega
  rw [h1, h2]

theorem fullText_swap_law_witness :
    pdfToText stA idA none (some 2) (some 0) = pdfToText stA idA none (some 0) (some 2) :=
  fullText_swap_law stA idA none (by decide) (by decide) 0 2 (by decide) (by decide)
    (by decide)

/-- C6: on an open N-page session (N ≥ 1), get-pdf-page-text at index N
fails with the InvalidArgument message naming the valid range, at index
N - 1 it succeeds, and in general a single page index is accepted exactly
when it lies in the interval from 0 up to the page count (exclusive). -/
theorem pageText_index_validation (st : PState) (id : String)
    (hid : id ≠ "") (hmem : dmem id st.pdfs = true)
    (hn : 1 ≤ (docOf st id).pages.length) :
    getPdfPageText st id (some ((docOf st id).pages.length : Int)) =
      Except.error ("Invalid page number (0-" ++
        toString (((docOf st id).pages.length : Int) - 1) ++ ")") ∧
    isOkE (getPdfPageText st id (some (((docOf st id).pages.length : Int) - 1))) = true ∧
    (∀ p : Int, isOkE (getPdfPageText st id (some p)) = true ↔
      (0 ≤ p ∧ p < ((docOf st id).pages.length : Int))) := by
  have hg : ¬(id = "" ∨ dmem id st.pdfs = false) := by simp [hmem, hid]
  refine ⟨?_, ?_, ?_⟩
  · simp only [getPdfPageText, if_neg hg]
    rw [if_pos (by omega)]
  · simp only [getPdfPageText, if_neg hg]
    rw [if_neg (by omega)]
    rfl
  · intro p
    simp only [getPdfPageText, if_neg hg]
    by_cases hp : p < 0 ∨ ((docOf st id).pages.length : Int) ≤ p
    · rw [if_pos hp]
      simp only [isOkE]
      constructor
      · intro hfalse
        exact absurd hfalse (by simp)
      · intro hrange
        omega
    · rw [if_neg hp]
      simp only [isOkE]
      constructor
      · intro _
        omega
      · intro _
        trivial

theorem pageText_index_validation_witness :
    getPdfPageText stA idA (some ((docOf stA idA).pages.length : Int)) =
      Except.error ("Invalid page number (0-" ++
        toString (((docOf stA idA).pages.length : Int) - 1) ++ ")") ∧
    isOkE (getPdfPageText stA idA
      (some (((docOf stA idA).pages.length : Int) - 1))) = true ∧
    (∀ p : Int, isOkE (getPdfPageText stA idA (some p)) = true ↔
      (0 ≤ p ∧ p < ((docOf stA idA).pages.length : Int))) :=
  pageText_index_validation stA idA (by decide) (by decide) (by decide)

/-- C7 counterexample: on a page whose extracted text is the string
x-newline-newline-y, get-pdf-page-text embeds the text verbatim and its
result differs from the result the claim describes, in which the double
newline would have been collapsed. -/
theorem pageText_not_collapsed_cex :
    isOkE (getPdfPageText stB idB (some 0)) = true ∧
    okText (getPdfPageText stB idB (some 0)) =
      "Text from page 0 of \x27b.pdf\x27:\n\nx\n\ny\n\nImages on page: 0" ∧
    collapseStr "x\n\ny" = "x\ny" ∧
    ¬ okText (getPdfPageText stB idB (some 0)) =
      "Text from page 0 of \x27b.pdf\x27:\n\n" ++ collapseStr "x\n\ny" ++
        "\n\nImages on page: 0" := by decide

/-- C7 (amended): on an open session and an in-range page index, the
get-pdf-page-text tool substitutes the placeholder when the page's
extracted text is empty, and otherwise embeds the extracted text verbatim,
with no double-newline collapsing (the collapse happens only in the
prompts and in pdf-to-text). -/
theorem pageText_verbatim_or_placeholder (st : PState) (id : String)
    (hid : id ≠ "") (hmem : dmem id st.pdfs = true) (p : Int)
    (hp0 : 0 ≤ p) (hpn : p < ((docOf st id).pages.length : Int)) :
    getPdfPageText st id (some p) =
      Except.ok ("Text from page " ++ toString p ++ " of \x27" ++
        basename (pathOf st id) ++ "\x27:\n\n" ++
        (if (docOf st id).pages.getD p.toNat "" = ""
          then "No extractable text found on page " ++ toString p
          else (docOf st id).pages.getD p.toNat "") ++
        "\n\nImages on page: " ++
        toString (extractImagesFromPage (docOf st id) p.toNat id).length) := by
  have hg : ¬(id = "" ∨ dmem id st.pdfs = false) := by simp [hmem, hid]
  simp only [getPdfPageText, if_neg hg]
  rw [if_neg (by omega)]

theorem pageText_verbatim_or_placeholder_witness :
    getPdfPageText stB idB (some 0) =
      Except.ok ("Text from page " ++ toString (0 : Int) ++ " of \x27" ++
        basename (pathOf stB idB) ++ "\x27:\n\n" ++
        (if (docOf stB idB).pages.getD (0 : Int).toNat "" = ""
          then "No extractable text found on page " ++ toString (0 : Int)
          else (docOf stB idB).pages.getD (0 : Int).toNat "") ++
        "\n\nImages on page: " ++
        toString (extractImagesFromPage (docOf stB idB) (0 : Int).toNat idB).length) :=
  pageText_verbatim_or_placeholder stB idB (by decide) (by decide) 0 (by decide)
    (by decide)

/-- Final start bound used by pdf-to-text after clamping and swapping. -/
def finalStart (st : PState) (id : String) (sArg eArg : Option Int) : Int :=
  let n : Int := (docOf st id).pages.length
  let s1 := clampStart n (sArg.getD 0)
  let e1 := clampEnd n (eArg.getD (n - 1))
  if e1 < s1 then e1 else s1

/-- Final end bound used by pdf-to-text after clamping and swapping. -/
def finalEnd (st : PState) (id : String) (sArg eArg : Option Int) : Int :=
  let n : Int := (docOf st id).pages.length
  let s1 := clampStart n (sArg.getD 0)
  let e1 := clampEnd n (eArg.getD (n - 1))
  if e1 < s1 then s1 else e1

/-- C8 counterexample: with include_page_numbers set to false, a page with
no extractable text contributes nothing to the pdf-to-text output: the
placeholder marker appears nowhere, so the page is silently omitted. -/
theorem fullText_no_placeholder_without_markers_cex :
    docE.pages = [""] ∧
    fullTextParts docE 1 false 0 0 = [] ∧
    okText (pdfToText stE idE (some false) none none) =
      "Text extracted from all pages (1-1) of \x27e.pdf\x27\n\n" ∧
    strContains (okText (pdfToText stE idE (some false) none none))
      "[No extractable text]" = false := by decide

/-- C8 (amended): when include_page_numbers is true, every page of the
final pdf-to-text range whose extracted text is empty contributes the
placeholder marker to the concatenated output; with the flag false such
pages are omitted (see the counterexample). -/
theorem fullText_placeholder_when_markers (st : PState) (id : String)
    (hid : id ≠ "") (hmem : dmem id st.pdfs = true) (sArg eArg : Option Int)
    (p : Int)
    (hp : p ∈ intRange (finalStart st id sArg eArg) (finalEnd st id sArg eArg))
    (hraw : (docOf st id).pages.getD p.toNat "" = "") :
    (pageMarker p ((docOf st id).pages.length : Int) ++ "[No extractable text]") ∈
      fullTextParts (docOf st id) ((docOf st id).pages.length : Int) true
        (finalStart st id sArg eArg) (finalEnd st id sArg eArg) ∧
    pdfToText st id (some true) sArg eArg =
      Except.ok ("Text extracted from " ++
        rangeDesc ((docOf st id).pages.length : Int)
          (finalStart st id sArg eArg) (finalEnd st id sArg eArg) ++
        " of \x27" ++ basename (pathOf st id) ++ "\x27\n\n" ++
        String.intercalate "\n"
          (fullTextParts (docOf st id) ((docOf st id).pages.length : Int) true
            (finalStart st id sArg eArg) (finalEnd st id sArg eArg))) := by
  have hg : ¬(id = "" ∨ dmem id st.pdfs = false) := by simp [hmem, hid]
  constructor
  · unfold fullTextParts
    apply List.mem_flatMap.mpr
    refine ⟨p, hp, ?_⟩
    simp only [pageEntry]
    rw [if_pos hraw]
    simp
  · simp only [pdfToText, if_neg hg, finalStart, finalEnd, Option.getD_some]

theorem fullText_placeholder_when_markers_witness :
    ((1 : Int) ∈ intRange (finalStart stA idA none none) (finalEnd stA idA none none) ∧
      (docOf stA idA).pages.getD (1 : Int).toNat "" = "") ∧
    ((pageMarker 1 ((docOf stA idA).pages.length : Int) ++ "[No extractable text]") ∈
      fullTextParts (docOf stA idA) ((docOf stA idA).pages.length : Int) true
        (finalStart stA idA none none) (finalEnd stA idA none none) ∧
    pdfToText stA idA (some true) none none =
      Except.ok ("Text extracted from " ++
        rangeDesc ((docOf stA idA).pages.length : Int)
          (finalStart stA idA none none) (finalEnd stA idA none none) ++
        " of \x27" ++ basename (pathOf stA idA) ++ "\x27\n\n" ++
        String.intercalate "\n"
          (fullTextParts (docOf stA idA) ((docOf stA idA).pages.length : Int) true
            (finalStart stA idA none none) (finalEnd stA idA none none)))) :=
  ⟨⟨by decide, by decide⟩,
    fullText_placeholder_when_markers stA idA (by decide) (by decide) none none 1
      (by decide) (by decide)⟩

/-- Conjunction of the id-keyed operations rejecting an id with the
InvalidArgument message "Invalid PDF ID" (used by claim C2). -/
def rejectsId (st : PState) (id : String) : Prop :=
  getPdfPageCount st id = Except.error "Invalid PDF ID" ∧
  (∀ p, getPdfPageText st id p = Except.error "Invalid PDF ID") ∧
  (∀ inc sArg eArg, pdfToText st id inc sArg eArg = Except.error "Invalid PDF ID") ∧
  (∀ p, extractImagesTool st id p = Except.error "Invalid PDF ID") ∧
  listPdfMetadata st id = Except.error "Invalid PDF ID" ∧
  (∀ r, closePdf st id ≠ Except.ok r) ∧
  closePdf st id = Except.error "Invalid PDF ID"

/-- C2: closing an open session releases its document handle, removes the
id from the handle, path and image-cache dicts, and afterwards every
id-keyed operation (page count, page text, full text, image extraction,
metadata, close) fails with the InvalidArgument message "Invalid PDF ID";
the id is found by no lookup any more. -/
theorem close_releases_and_invalidates (st : PState) (id : String)
    (hid : id ≠ "") (hmem : dmem id st.pdfs = true) :
    ∃ st' msg, closePdf st id = Except.ok (st', msg) ∧
      dlookup id st'.pdfs = none ∧
      dlookup id st'.pdf_paths = none ∧
      dlookup id st'.pdf_images = none ∧
      (∀ hh, dlookup id st.pdfs = some hh → hh ∈ st'.closed) ∧
      rejectsId st' id := by
  have hg : ¬(id = "" ∨ dmem id st.pdfs = false) := by simp [hmem, hid]
  refine ⟨{ st with
      pdfs := derase id st.pdfs
      pdf_paths := derase id st.pdf_paths
      pdf_images := derase id st.pdf_images
      closed := ((dlookup id st.pdfs).getD 0) :: st.closed },
    "Closed PDF \x27" ++ basename (pathOf st id) ++ "\x27", ?_, ?_, ?_, ?_, ?_, ?_⟩
  · simp only [closePdf, if_neg hg]
  · exact dlookup_derase_self id st.pdfs
  · exact dlookup_derase_self id st.pdf_paths
  · exact dlookup_derase_self id st.pdf_images
  · intro hh hl
    simp [hl]
  · have hgone : dmem id (derase id st.pdfs) = false := by
      simp [dmem, dlookup_derase_self]
    refine ⟨?_, ?_, ?_, ?_, ?_, ?_, ?_⟩
    · simp [getPdfPageCount, hgone]
    · intro p
      simp [getPdfPageText, hgone]
    · intro inc sArg eArg
      simp [pdfToText, hgone]
    · intro p
      simp [extractImagesTool, hgone]
    · simp [listPdfMetadata, hgone]
    · intro r
      simp [closePdf, hgone]
    · simp [closePdf, hgone]

theorem close_releases_and_invalidates_witness :
    ∃ st' msg, closePdf stA idA = Except.ok (st', msg) ∧
      dlookup idA st'.pdfs = none ∧
      dlookup idA st'.pdf_paths = none ∧
      dlookup idA st'.pdf_images = none ∧
      (∀ hh, dlookup idA stA.pdfs = some hh → hh ∈ st'.closed) ∧
      rejectsId st' idA :=
  close_releases_and_invalidates stA idA (by decide) (by decide)

/-- C10: opening a path whose session is already open succeeds, stores a
fresh handle under the same deterministic id (overwriting the entry), does
not close or release the previously stored handle, and leaves the number
of registry entries unchanged. -/
theorem reopen_same_path (fs : String → Option Doc) (st : PState) (path : String)
    (d : Doc) (hpath : path ≠ "") (hfs : fs path = some d)
    (h1 : Nat) (hmem : dlookup (pdfId path) st.pdfs = some h1)
    (hfresh : h1 ≠ st.next) :
    ∃ st' msg, openPdf fs st path = Except.ok (st', msg) ∧
      dlookup (pdfId path) st'.pdfs = some st.next ∧
      st.next ≠ h1 ∧
      st'.pdfs.length = st.pdfs.length ∧
      st'.closed = st.closed ∧
      dlookup h1 st'.handleDoc = dlookup h1 st.handleDoc := by
  refine ⟨{ st with
      pdfs := dinsert (pdfId path) st.next st.pdfs
      pdf_paths := dinsert (pdfId path) path st.pdf_paths
      pdf_images := dinsert (pdfId path) [] st.pdf_images
      handleDoc := dinsert st.next d st.handleDoc
      next := st.next + 1 },
    "Opened PDF \x27" ++ basename path ++ "\x27 with " ++
      toString d.pages.length ++ " pages. PDF ID: " ++ pdfId path,
    ?_, ?_, ?_, ?_, ?_, ?_⟩
  · simp only [openPdf, if_neg hpath, hfs]
  · exact dlookup_dinsert_self (pdfId path) st.next st.pdfs
  · exact Ne.symm hfresh
  · exact length_dinsert_mem (pdfId path) st.next st.pdfs (by simp [dmem, hmem])
  · rfl
  · exact dlookup_dinsert_ne h1 st.next d st.handleDoc (Ne.symm hfresh)

theorem reopen_same_path_witness :
    ∃ st' msg, openPdf fsAB stA "/tmp/a.pdf" = Except.ok (st', msg) ∧
      dlookup (pdfId "/tmp/a.pdf") st'.pdfs = some stA.next ∧
      stA.next ≠ 0 ∧
      st'.pdfs.length = stA.pdfs.length ∧
      st'.closed = stA.closed ∧
      dlookup 0 st'.handleDoc = dlookup 0 stA.handleDoc :=
  reopen_same_path fsAB stA "/tmp/a.pdf" docA (by decide) (by decide) 0 (by decide)
    (by decide)

/-- State after opening the first of two colliding paths. -/
def stColl1 : PState :=
  match openPdf fsColl st0 "/tmp/aaaaaa1.pdf" with
  | Except.ok r => r.1
  | Except.error _ => st0

/-- State after then opening the second colliding path. -/
def stColl2 : PState :=
  match openPdf fsColl stColl1 "/tmp/aaaaaa2.pdf" with
  | Except.ok r => r.1
  | Except.error _ => stColl1

/-- C1 counterexample: two distinct absolute paths sharing their first nine
bytes derive the same truncated session id, so opening both leaves a single
registry entry (the second open overwrites the first), refuting that two
distinct readable paths always yield two entries with distinct ids. -/
theorem distinct_paths_same_id_cex :
    ("/tmp/aaaaaa1.pdf" : String) ≠ "/tmp/aaaaaa2.pdf" ∧
    isOkE (openPdf fsColl st0 "/tmp/aaaaaa1.pdf") = true ∧
    isOkE (openPdf fsColl stColl1 "/tmp/aaaaaa2.pdf") = true ∧
    pdfId "/tmp/aaaaaa1.pdf" = pdfId "/tmp/aaaaaa2.pdf" ∧
    stColl2.pdfs.length = 1 := by decide

/-- C1 (amended): the registry keeps at most one entry per id, so session
ids are unique among simultaneously open sessions; opening two readable,
parseable PDFs at two distinct absolute paths yields two registry entries
with distinct ids exactly when the derived ids differ (the id is the first
twelve URL-safe base64 characters of the path's UTF-8 bytes, so two paths
sharing their first nine bytes collide and the later open overwrites the
earlier entry). -/
theorem open_two_distinct_ids (fs : String → Option Doc) (st : PState)
    (p1 p2 : String) (d1 d2 : Doc)
    (hp1 : p1 ≠ "") (hp2 : p2 ≠ "") (hf1 : fs p1 = some d1) (hf2 : fs p2 = some d2)
    (hidne : pdfId p1 ≠ pdfId p2)
    (hm1 : dmem (pdfId p1) st.pdfs = false) (hm2 : dmem (pdfId p2) st.pdfs = false) :
    ∃ s1 m1 s2 m2, openPdf fs st p1 = Except.ok (s1, m1) ∧
      openPdf fs s1 p2 = Except.ok (s2, m2) ∧
      dlookup (pdfId p1) s2.pdfs = some st.next ∧
      dlookup (pdfId p2) s2.pdfs = some (st.next + 1) ∧
      s2.pdfs.length = st.pdfs.length + 2 := by
  refine ⟨{ st with
      pdfs := dinsert (pdfId p1) st.next st.pdfs
      pdf_paths := dinsert (pdfId p1) p1 st.pdf_paths
      pdf_images := dinsert (pdfId p1) [] st.pdf_images
      handleDoc := dinsert st.next d1 st.handleDoc
      next := st.next + 1 },
    "Opened PDF \x27" ++ basename p1 ++ "\x27 with " ++
      toString d1.pages.length ++ " pages. PDF ID: " ++ pdfId p1,
    { st with
      pdfs := dinsert (pdfId p2) (st.next + 1) (dinsert (pdfId p1) st.next st.pdfs)
      pdf_paths := dinsert (pdfId p2) p2 (dinsert (pdfId p1) p1 st.pdf_paths)
      pdf_images := dinsert (pdfId p2) [] (dinsert (pdfId p1) [] st.pdf_images)
      handleDoc := dinsert (st.next + 1) d2 (dinsert st.next d1 st.handleDoc)
      next := st.next + 1 + 1 },
    "Opened PDF \x27" ++ basename p2 ++ "\x27 with " ++
      toString d2.pages.length ++ " pages. PDF ID: " ++ pdfId p2,
    ?_, ?_, ?_, ?_, ?_⟩
  · simp only [openPdf, if_neg hp1, hf1]
  · simp only [openPdf, if_neg hp2, hf2]
  · rw [dlookup_dinsert_ne _ _ _ _ (Ne.symm hidne)]
    exact dlookup_dinsert_self (pdfId p1) st.next st.pdfs
  · exact dlookup_dinsert_self (pdfId p2) (st.next + 1) _
  · have hm2b : dmem (pdfId p2) (dinsert (pdfId p1) st.next st.pdfs) = false := by
      simp only [dmem, dlookup_dinsert_ne _ _ _ _ hidne]
      exact hm2
    rw [length_dinsert_notmem _ _ _ hm2b, length_dinsert_notmem _ _ _ hm1]

theorem open_two_distinct_ids_witness :
    ∃ s1 m1 s2 m2, openPdf fsAB st0 "/tmp/a.pdf" = Except.ok (s1, m1) ∧
      openPdf fsAB s1 "/tmp/b.pdf" = Except.ok (s2, m2) ∧
      dlookup (pdfId "/tmp/a.pdf") s2.pdfs = some st0.next ∧
      dlookup (pdfId "/tmp/b.pdf") s2.pdfs = some (st0.next + 1) ∧
      s2.pdfs.length = st0.pdfs.length + 2 :=
  open_two_distinct_ids fsAB st0 "/tmp/a.pdf" "/tmp/b.pdf" docA docB (by decide)
    (by decide) (by decide) (by decide) (by decide) (by decide) (by decide)

/-- C9: reading the resource pdf://id of an open session returns the base64
encoding of the bytes of the file at the session's stored path, the
standard base64 decoding of that string gives back exactly those bytes, and
the read fails for an id absent from pdf_paths or a URI scheme other than
pdf. -/
theorem read_resource_roundtrip (fileOf : String → List Nat) (st : PState)
    (id p : String) (hp : dlookup id st.pdf_paths = some p)
    (hbytes : ∀ b ∈ fileOf p, b < 256) :
    readResource fileOf st "pdf" id = Except.ok (String.mk (b64EncodeStd (fileOf p))) ∧
    b64DecodeStd (String.mk (b64EncodeStd (fileOf p))).data = fileOf p ∧
    (∀ id2, dlookup id2 st.pdf_paths = none →
      isOkE (readResource fileOf st "pdf" id2) = false) ∧
    (∀ scheme host, scheme ≠ "pdf" → isOkE (readResource fileOf st scheme host) = false) := by
  refine ⟨?_, ?_, ?_, ?_⟩
  · simp [readResource, hp]
  · exact b64_roundtrip (fileOf p) hbytes
  · intro id2 h2
    simp [readResource, h2, isOkE]
  · intro scheme host hscheme
    simp [readResource, hscheme, isOkE]

theorem read_resource_roundtrip_witness :
    readResource fileOfA stA "pdf" idA =
      Except.ok (String.mk (b64EncodeStd (fileOfA "/tmp/a.pdf"))) ∧
    b64DecodeStd (String.mk (b64EncodeStd (fileOfA "/tmp/a.pdf"))).data =
      fileOfA "/tmp/a.pdf" ∧
    (∀ id2, dlookup id2 stA.pdf_paths = none →
      isOkE (readResource fileOfA stA "pdf" id2) = false) ∧
    (∀ scheme host, scheme ≠ "pdf" →
      isOkE (readResource fileOfA stA scheme host) = false) :=
  read_resource_roundtrip fileOfA stA idA "/tmp/a.pdf" (by decide) (by decide)

set_option maxRecDepth 100000 in
/-- C3: evaluation at the failing input.  On a two-page document with
nonempty texts, the image-capable variant's analyze prompt produces the
same message for page_range "0-0" as for no page_range at all and embeds
the page outside the requested slice, while the plain variant's analyze
prompt honours the range and embeds only page one of two. -/
theorem analyze_page_range_ignored_eval :
    isOkE (analyzePromptNew stC idC (some "q") (some "0-0")) = true ∧
    okText (analyzePromptNew stC idC (some "q") (some "0-0")) =
      okText (analyzePromptNew stC idC (some "q") none) ∧
    strContains (okText (analyzePromptNew stC idC (some "q") (some "0-0")))
      "--- PAGE 2/2 ---" = true ∧
    isOkE (analyzePromptOld stC idC (some "q") (some "0-0")) = true ∧
    strContains (okText (analyzePromptOld stC idC (some "q") (some "0-0")))
      "--- PAGE 2/2 ---" = false ∧
    strContains (okText (analyzePromptOld stC idC (some "q") (some "0-0")))
      "--- PAGE 1/2 ---" = true := by decide

end PdfReader
